import Mathlib

/-!
Shallow embedding of the command dispatch and memoization subsystem of the
tredparse web repository (Meteor methods file): the Result Store of Records,
the `documents.upsert` / `documents.remove` methods, the `docker.hli` /
`docker.public` dispatch methods with their dedup check, bounded output
capture and completion callback, and the rate limiter registration.
-/

/-- A Record of the Result Store (a document of the `Documents` Mongo
collection).  Fields mirror the schema used by the methods file:
`_id`, `title` (the command string, the dedup key), `body` (stdout),
`stderr`, `createdAt`.  Optional fields model Mongo fields that may be
absent from a document. -/
structure Document where
  _id : String
  title : Option String := none
  body : Option String := none
  stderr : Option String := none
  createdAt : Option Nat := none
deriving Repr, DecidableEq

/-- The fields a `$set` modifier may carry (the upsert method's validated
argument fields plus the dispatcher's `createdAt`). -/
structure SetFields where
  title : Option String := none
  body : Option String := none
  stderr : Option String := none
  createdAt : Option Nat := none
deriving Repr, DecidableEq

/-- One field of a `$set` modifier: a provided value overwrites, an absent
one keeps the old value. -/
def setField {α : Type} (new old : Option α) : Option α :=
  match new with
  | some v => some v
  | none => old

/-- Apply a `$set` modifier to an existing document: listed fields are
overwritten, all others retained (the `_id` is never changed). -/
def applySet (d : Document) (f : SetFields) : Document :=
  { _id := d._id
    title := setField f.title d.title
    body := setField f.body d.body
    stderr := setField f.stderr d.stderr
    createdAt := setField f.createdAt d.createdAt }

/-- A blank document carrying only an id, used when an upsert inserts. -/
def blankDoc (id : String) : Document :=
  { _id := id, title := none, body := none, stderr := none, createdAt := none }

/-- Model of `Documents.upsert({_id: sel}, {$set: fields})`.
When the selector carries an id and a document with that id exists, the
`$set` fields are merged into it; when none exists, a new document with that
id and the set fields is inserted.  When the selector's `_id` is `undefined`
(the `sel = none` case, as in the dispatch callback, whose `output._id` is
undefined), no document matches and Meteor inserts under a freshly generated
id, here passed in as `freshId`. -/
def Documents.upsert (store : List Document) (sel : Option String)
    (fields : SetFields) (freshId : String) : List Document :=
  match sel with
  | some id =>
    if store.any (fun d => d._id == id) then
      store.map (fun d => if d._id == id then applySet d fields else d)
    else
      store ++ [applySet (blankDoc id) fields]
  | none => store ++ [applySet (blankDoc freshId) fields]

/-- Model of `Documents.remove(_id)`: delete the documents with that id;
a no-op when absent. -/
def Documents.remove (store : List Document) (id : String) : List Document :=
  store.filter (fun d => d._id != id)

/-- The validated argument object of the `documents.upsert` method:
`_id`, `title`, `body`, `stderr`, all optional strings. -/
structure UpsertArgs where
  _id : Option String := none
  title : Option String := none
  body : Option String := none
  stderr : Option String := none
deriving Repr, DecidableEq

/-- The `$set` fields carried by a `documents.upsert` call (`$set: document`;
the method never sets `createdAt`). -/
def UpsertArgs.toSetFields (a : UpsertArgs) : SetFields :=
  { title := a.title, body := a.body, stderr := a.stderr, createdAt := none }

/-- The `run` body of the `documents.upsert` method:
`Documents.upsert({_id: document._id}, {$set: document})`. -/
def upsertDocumentRun (store : List Document) (args : UpsertArgs)
    (freshId : String) : List Document :=
  Documents.upsert store args._id args.toSetFields freshId

/-- The `run` body of the `documents.remove` method: `Documents.remove(_id)`. -/
def removeDocumentRun (store : List Document) (id : String) : List Document :=
  Documents.remove store id

/-- The validated argument object of the `docker.hli` and `docker.public`
methods: an optional `_id` and the command string `cmd`.  (The schema marks
`cmd` optional as well; it is modelled as present, every dispatch in scope
supplying one.) -/
structure MethodDoc where
  _id : Option String := none
  cmd : String
deriving Repr, DecidableEq

/-- The outcome the external `exec` callback delivers: the error argument
(`none` models a null `err`, `some e` models an error whose `toString()` is
`e`), the captured stdout and the captured stderr. -/
structure ExecOutcome where
  err : Option String
  stdout : String
  stderr : String
deriving Repr, DecidableEq

/-- Result of one dispatch method run: the store afterwards, and the full
command line handed to `exec` when a process was spawned (`none` on a dedup
hit). -/
structure DispatchResult where
  store : List Document
  spawned : Option String
deriving Repr, DecidableEq

/-- The way the completion callback can throw: evaluating `err.toString()`
when `err` is null (which happens exactly when stdout is empty and the
process succeeded). -/
inductive CallbackError where
  | nullErrToString
deriving Repr, DecidableEq

/-- Model of `JSON.stringify({error: e})` for an error string `e` needing no
JSON escaping (an external JS builtin, modelled at its boundary). -/
def jsonStringifyError (e : String) : String :=
  "\x7b\"error\":\"" ++ e ++ "\"\x7d"

/-- The callback's stdout substitution expression,
`stdout.toString() ? stdout.toString() : JSON.stringify({error: err.toString()})`:
a non-empty stdout is kept verbatim; an empty stdout is replaced by the
structured error payload, which dereferences `err` and therefore throws a
TypeError when `err` is null. -/
def stdoutSubst (err : Option String) (stdout : String) :
    Except CallbackError String :=
  if stdout = "" then
    match err with
    | some e => Except.ok (jsonStringifyError e)
    | none => Except.error CallbackError.nullErrToString
  else
    Except.ok stdout

/-- The shared body of the two docker dispatch methods, parameterized by the
fixed container-runtime command prefix (`image`):
dedup check on `Documents.find({title: document.cmd}).count()`, then
`exec(image ++ cmd)` whose callback builds
`{title, body, stderr, createdAt}` and upserts it with selector
`{_id: output._id}` — `output` carries no `_id` field, so the selector id is
absent and the record is stored under a fresh id. -/
def dockerRun (image : String) (store : List Document) (doc : MethodDoc)
    (o : ExecOutcome) (now : Nat) (freshId : String) : DispatchResult :=
  if store.countP (fun d => d.title == some doc.cmd) ≠ 0 then
    { store := store, spawned := none }
  else
    let cmd := image ++ doc.cmd
    match stdoutSubst o.err o.stdout with
    | Except.error _ => { store := store, spawned := some cmd }
    | Except.ok body =>
      { store := Documents.upsert store none
          { title := some doc.cmd, body := some body,
            stderr := some o.stderr, createdAt := some now } freshId
        spawned := some cmd }

/-- The fixed command prefix of `docker.hli`. -/
def hliImage : String := "docker run --rm tanghaibao/tredparse "

/-- The fixed command prefix of `docker.public`. -/
def publicImage : String := "docker run --rm tanghaibao/tredparse-public "

/-- The `run` body of the `docker.hli` method (`HLIDocker`), written out as
in the source: skip when a record titled `document.cmd` exists, else
`exec` the command under the `tanghaibao/tredparse` image with
`maxBuffer: 1024 * 1000`, and on completion upsert
`{title: document.cmd, body: stdoutText, stderr: stderrText, createdAt: now}`
with selector `{_id: output._id}` (undefined). -/
def HLIDockerRun (store : List Document) (doc : MethodDoc) (o : ExecOutcome)
    (now : Nat) (freshId : String) : DispatchResult :=
  if store.countP (fun d => d.title == some doc.cmd) ≠ 0 then
    { store := store, spawned := none }
  else
    let cmd := "docker run --rm tanghaibao/tredparse " ++ doc.cmd
    match stdoutSubst o.err o.stdout with
    | Except.error _ => { store := store, spawned := some cmd }
    | Except.ok body =>
      { store := Documents.upsert store none
          { title := some doc.cmd, body := some body,
            stderr := some o.stderr, createdAt := some now } freshId
        spawned := some cmd }

/-- The `run` body of the `docker.public` method (`PublicDocker`): identical
to `HLIDockerRun` except for the `tanghaibao/tredparse-public` image. -/
def PublicDockerRun (store : List Document) (doc : MethodDoc) (o : ExecOutcome)
    (now : Nat) (freshId : String) : DispatchResult :=
  if store.countP (fun d => d.title == some doc.cmd) ≠ 0 then
    { store := store, spawned := none }
  else
    let cmd := "docker run --rm tanghaibao/tredparse-public " ++ doc.cmd
    match stdoutSubst o.err o.stdout with
    | Except.error _ => { store := store, spawned := some cmd }
    | Except.ok body =>
      { store := Documents.upsert store none
          { title := some doc.cmd, body := some body,
            stderr := some o.stderr, createdAt := some now } freshId
        spawned := some cmd }

/-! Concrete values used by witnesses and counterexamples. -/

/-- A sample command string. -/
def wCmd : String := "echo hi"

/-- A second, distinct sample command string. -/
def wCmd2 : String := "pwd"

/-- A sample pre-existing record id. -/
def wId0 : String := "a1"

/-- A sample pre-supplied caller id. -/
def wSupplied : String := "abc"

/-- A sample fresh id generated at upsert time. -/
def wFresh : String := "gen1"

/-- A second fresh id. -/
def wFresh2 : String := "gen2"

/-- A sample captured stdout. -/
def wBody : String := "hi\n"

/-- The empty string (a sample empty stdout or stderr). -/
def wEmpty : String := ""

/-- A sample dispatch argument document carrying no pre-supplied id. -/
def wDoc : MethodDoc := { _id := none, cmd := wCmd }

/-- A sample record already present in the store for `wCmd`. -/
def wRecord : Document :=
  { _id := wId0, title := some wCmd, body := some wBody,
    stderr := some wEmpty, createdAt := some 1 }

/-- A sample successful exec outcome for `wCmd`. -/
def wOutcome : ExecOutcome := { err := none, stdout := wBody, stderr := wEmpty }

/-- C1: when the store already holds a Record whose title equals the
submitted `cmd`, both `docker.hli` and `docker.public` return immediately:
no process is spawned and the store is unchanged. -/
theorem dedup_skips_when_command_cached (store : List Document)
    (doc : MethodDoc) (o : ExecOutcome) (now : Nat) (freshId : String)
    (h : ∃ d ∈ store, d.title = some doc.cmd) :
    HLIDockerRun store doc o now freshId = { store := store, spawned := none } ∧
    PublicDockerRun store doc o now freshId = { store := store, spawned := none } := by
  have hc : store.countP (fun d => d.title == some doc.cmd) ≠ 0 := by
    obtain ⟨d, hd, ht⟩ := h
    have hpos : 0 < store.countP (fun d => d.title == some doc.cmd) :=
      List.countP_pos_iff.mpr ⟨d, hd, by simp [ht]⟩
    omega
  exact ⟨by simp [HLIDockerRun, hc], by simp [PublicDockerRun, hc]⟩

/-- Witness for C1 at a concrete store holding a record titled `wCmd`. -/
theorem dedup_skips_when_command_cached_witness :
    (∃ d ∈ [wRecord], d.title = some wDoc.cmd) ∧
    (HLIDockerRun [wRecord] wDoc wOutcome 5 wFresh =
        { store := [wRecord], spawned := none } ∧
      PublicDockerRun [wRecord] wDoc wOutcome 5 wFresh =
        { store := [wRecord], spawned := none }) :=
  ⟨by decide, dedup_skips_when_command_cached [wRecord] wDoc wOutcome 5 wFresh (by decide)⟩

/-- C2: evaluating the `docker.hli` run at a dispatch that carries the
pre-supplied id `wSupplied` on an empty store: the completed Record is
stored under the fresh id (`output._id` being undefined), and no Record
with the pre-supplied id exists afterwards, so a caller polling by it never
observes the result. -/
theorem hli_persists_fresh_id_not_supplied_id :
    (HLIDockerRun [] { _id := some wSupplied, cmd := wCmd } wOutcome 7 wFresh).store =
      [{ _id := wFresh, title := some wCmd, body := some wBody,
         stderr := some wEmpty, createdAt := some 7 }] ∧
    ((HLIDockerRun [] { _id := some wSupplied, cmd := wCmd } wOutcome 7 wFresh).store.countP
        (fun d => d._id == wSupplied)) = 0 := by
  decide

/-- C7: `docker.hli` and `docker.public` are both instances of the one
parameterized dispatcher `dockerRun`, differing only in the fixed
container-runtime prefix prepended to the command line. -/
theorem hli_public_differ_only_in_image :
    (∀ store doc o now freshId,
        HLIDockerRun store doc o now freshId =
          dockerRun hliImage store doc o now freshId) ∧
    (∀ store doc o now freshId,
        PublicDockerRun store doc o now freshId =
          dockerRun publicImage store doc o now freshId) ∧
    hliImage = "docker run --rm tanghaibao/tredparse" ++ " " ∧
    publicImage = "docker run --rm tanghaibao/tredparse-public" ++ " " :=
  ⟨fun _ _ _ _ _ => rfl, fun _ _ _ _ _ => rfl, by decide, by decide⟩

/-! Helper lemmas about `$set` application and the upsert update map. -/

/-- Setting the same field value twice is the same as setting it once. -/
theorem setField_setField {α : Type} (n o : Option α) :
    setField n (setField n o) = setField n o := by
  cases n <;> rfl

/-- A `$set` application never changes the id. -/
theorem applySet_preserves_id (d : Document) (f : SetFields) :
    (applySet d f)._id = d._id := rfl

/-- Applying the same `$set` modifier twice equals applying it once. -/
theorem applySet_applySet (d : Document) (f : SetFields) :
    applySet (applySet d f) f = applySet d f := by
  simp [applySet, setField_setField]

/-- Pointwise congruence for `countP`, in the form used below. -/
theorem countP_congr_fun {α : Type} (l : List α) (p q : α → Bool)
    (h : ∀ a ∈ l, p a = q a) : l.countP p = l.countP q :=
  List.countP_congr (fun a ha => by rw [h a ha])

/-- C9: calling `documents.upsert` twice with identical arguments carrying an
`_id` leaves the store equal to the state after one call, with exactly one
Record under that id and that Record carrying the submitted field values. -/
theorem upsert_idempotent (store : List Document) (args : UpsertArgs)
    (id f1 f2 : String) (hid : args._id = some id)
    (huniq : store.countP (fun d => d._id == id) ≤ 1) :
    upsertDocumentRun (upsertDocumentRun store args f1) args f2 =
      upsertDocumentRun store args f1 ∧
    (upsertDocumentRun store args f1).countP (fun d => d._id == id) = 1 ∧
    (∀ d ∈ upsertDocumentRun store args f1, d._id = id →
      (args.title ≠ none → d.title = args.title) ∧
      (args.body ≠ none → d.body = args.body) ∧
      (args.stderr ≠ none → d.stderr = args.stderr)) := by
  simp only [upsertDocumentRun, Documents.upsert, hid]
  by_cases h : store.any (fun d => d._id == id) = true
  · rw [if_pos h]
    obtain ⟨d0, hd0, hp0⟩ := List.any_eq_true.mp h
    have hfid : ∀ d : Document,
        ((if d._id == id then applySet d args.toSetFields else d))._id = d._id := by
      intro d
      by_cases hc : d._id == id
      · rw [if_pos hc, applySet_preserves_id]
      · rw [if_neg hc]
    have hppt : ∀ d : Document,
        (fun d : Document => d._id == id)
          ((fun d : Document => if d._id == id then applySet d args.toSetFields else d) d) =
        (fun d : Document => d._id == id) d := by
      intro d
      simp only
      rw [hfid d]
    have hany2 : (store.map
        (fun d => if d._id == id then applySet d args.toSetFields else d)).any
          (fun d => d._id == id) = true := by
      rw [List.any_map]
      rw [List.any_eq_true]
      refine ⟨d0, hd0, ?_⟩
      simp only [Function.comp]
      rw [hfid d0]
      exact hp0
    rw [if_pos hany2]
    refine ⟨?_, ?_, ?_⟩
    · rw [List.map_map]
      apply List.map_congr_left
      intro d _
      simp only [Function.comp]
      by_cases hc : d._id == id
      · rw [if_pos hc]
        have hc2 : (applySet d args.toSetFields)._id == id := by
          rw [applySet_preserves_id]; exact hc
        rw [if_pos hc2, applySet_applySet]
      · rw [if_neg hc, if_neg hc]
    · have hcnt : (store.map
          (fun d => if d._id == id then applySet d args.toSetFields else d)).countP
            (fun d => d._id == id) = store.countP (fun d => d._id == id) := by
        rw [List.countP_map]
        exact countP_congr_fun store _ _ (fun a _ => hppt a)
      rw [hcnt]
      have hpos : 0 < store.countP (fun d => d._id == id) :=
        List.countP_pos_iff.mpr ⟨d0, hd0, hp0⟩
      omega
    · intro d hd hdid
      obtain ⟨a, ha, hfa⟩ := List.mem_map.mp hd
      by_cases hc : a._id == id
      · rw [if_pos hc] at hfa
        subst hfa
        refine ⟨?_, ?_, ?_⟩
        · intro hne
          cases hat : args.title with
          | none => exact absurd hat hne
          | some t => simp [applySet, setField, UpsertArgs.toSetFields, hat]
        · intro hne
          cases hat : args.body with
          | none => exact absurd hat hne
          | some t => simp [applySet, setField, UpsertArgs.toSetFields, hat]
        · intro hne
          cases hat : args.stderr with
          | none => exact absurd hat hne
          | some t => simp [applySet, setField, UpsertArgs.toSetFields, hat]
      · rw [if_neg hc] at hfa
        subst hfa
        exact absurd (by simp [hdid]) hc
  · rw [if_neg h]
    have hforall : ∀ a ∈ store, ¬ a._id == id := by
      simp only [Bool.not_eq_true] at h
      exact List.any_eq_false.mp h
    have hnewid : (applySet (blankDoc id) args.toSetFields)._id = id := by
      rw [applySet_preserves_id]; rfl
    have hpnew : (applySet (blankDoc id) args.toSetFields)._id == id := by
      rw [hnewid]
      exact beq_self_eq_true id
    have hany2 : (store ++ [applySet (blankDoc id) args.toSetFields]).any
        (fun d => d._id == id) = true := by
      rw [List.any_eq_true]
      exact ⟨applySet (blankDoc id) args.toSetFields, by simp, hpnew⟩
    rw [if_pos hany2]
    refine ⟨?_, ?_, ?_⟩
    · rw [List.map_append]
      have h1 : store.map
          (fun d => if d._id == id then applySet d args.toSetFields else d) = store := by
        have : store.map
            (fun d => if d._id == id then applySet d args.toSetFields else d) =
            store.map (fun d => d) := by
          apply List.map_congr_left
          intro a ha
          rw [if_neg (hforall a ha)]
        rw [this]
        simp
      have h2 : [applySet (blankDoc id) args.toSetFields].map
          (fun d => if d._id == id then applySet d args.toSetFields else d) =
          [applySet (blankDoc id) args.toSetFields] := by
        simp only [List.map_cons, List.map_nil]
        rw [if_pos hpnew, applySet_applySet]
      rw [h1, h2]
    · rw [List.countP_append]
      have h0 : store.countP (fun d => d._id == id) = 0 :=
        List.countP_eq_zero.mpr hforall
      have h1 : ([applySet (blankDoc id) args.toSetFields] : List Document).countP
          (fun d => d._id == id) = 1 := by
        rw [List.countP_cons, List.countP_nil, if_pos hpnew]
      rw [h0, h1]
    · intro d hd hdid
      rcases List.mem_append.mp hd with hin | hin
      · exact absurd (by simp [hdid]) (hforall d hin)
      · have hdeq : d = applySet (blankDoc id) args.toSetFields := by
          simpa using hin
        subst hdeq
        refine ⟨?_, ?_, ?_⟩
        · intro hne
          cases hat : args.title with
          | none => exact absurd hat hne
          | some t => simp [applySet, setField, UpsertArgs.toSetFields, blankDoc, hat]
        · intro hne
          cases hat : args.body with
          | none => exact absurd hat hne
          | some t => simp [applySet, setField, UpsertArgs.toSetFields, blankDoc, hat]
        · intro hne
          cases hat : args.stderr with
          | none => exact absurd hat hne
          | some t => simp [applySet, setField, UpsertArgs.toSetFields, blankDoc, hat]

/-- A sample `documents.upsert` argument object carrying an id and a title. -/
def wArgs : UpsertArgs :=
  { _id := some wSupplied, title := some wCmd, body := none, stderr := none }

/-- Witness for C9: the double upsert of `wArgs` into the empty store. -/
theorem upsert_idempotent_witness :
    wArgs._id = some wSupplied ∧
    ([] : List Document).countP (fun d => d._id == wSupplied) ≤ 1 ∧
    (upsertDocumentRun (upsertDocumentRun [] wArgs wFresh) wArgs wFresh2 =
        upsertDocumentRun [] wArgs wFresh ∧
      (upsertDocumentRun [] wArgs wFresh).countP (fun d => d._id == wSupplied) = 1 ∧
      (∀ d ∈ upsertDocumentRun [] wArgs wFresh, d._id = wSupplied →
        (wArgs.title ≠ none → d.title = wArgs.title) ∧
        (wArgs.body ≠ none → d.body = wArgs.body) ∧
        (wArgs.stderr ≠ none → d.stderr = wArgs.stderr))) :=
  ⟨rfl, by decide,
    upsert_idempotent [] wArgs wSupplied wFresh wFresh2 rfl (by decide)⟩

/-- One completed Method Gateway operation, carrying the data its run
consumes: the argument object, and for a dispatch the exec outcome, the
completion time and the id Meteor generates at the completion upsert. -/
inductive GatewayOp where
  | opUpsert (args : UpsertArgs) (freshId : String)
  | opRemove (id : String)
  | opHli (doc : MethodDoc) (o : ExecOutcome) (now : Nat) (freshId : String)
  | opPublicDocker (doc : MethodDoc) (o : ExecOutcome) (now : Nat) (freshId : String)
deriving Repr, DecidableEq

/-- Whether an operation is a `documents.upsert` call. -/
def GatewayOp.isUpsert : GatewayOp → Bool
  | opUpsert _ _ => true
  | _ => false

/-- Effect of one completed operation on the Result Store. -/
def applyOp (store : List Document) : GatewayOp → List Document
  | GatewayOp.opUpsert args freshId => upsertDocumentRun store args freshId
  | GatewayOp.opRemove id => removeDocumentRun store id
  | GatewayOp.opHli doc o now freshId => (HLIDockerRun store doc o now freshId).store
  | GatewayOp.opPublicDocker doc o now freshId =>
      (PublicDockerRun store doc o now freshId).store

/-- The store reached from the empty store by a sequence of completed
operations, executed sequentially. -/
def runOps (ops : List GatewayOp) : List Document :=
  ops.foldl applyOp []

/-- `docker.hli` is the parameterized dispatcher at the hli image. -/
theorem HLIDockerRun_eq_dockerRun (store : List Document) (doc : MethodDoc)
    (o : ExecOutcome) (now : Nat) (freshId : String) :
    HLIDockerRun store doc o now freshId =
      dockerRun hliImage store doc o now freshId := rfl

/-- `docker.public` is the parameterized dispatcher at the public image. -/
theorem PublicDockerRun_eq_dockerRun (store : List Document) (doc : MethodDoc)
    (o : ExecOutcome) (now : Nat) (freshId : String) :
    PublicDockerRun store doc o now freshId =
      dockerRun publicImage store doc o now freshId := rfl

/-- A dispatch preserves "at most one record titled `c`": it inserts a
record titled `cmd` only after its dedup check found none. -/
theorem dockerRun_countP_le (image : String) (store : List Document)
    (doc : MethodDoc) (o : ExecOutcome) (now : Nat) (freshId : String)
    (c : String) (h : store.countP (fun d => d.title == some c) ≤ 1) :
    (dockerRun image store doc o now freshId).store.countP
      (fun d => d.title == some c) ≤ 1 := by
  unfold dockerRun
  by_cases hdup : store.countP (fun d => d.title == some doc.cmd) ≠ 0
  · rw [if_pos hdup]
    exact h
  · rw [if_neg hdup]
    cases hs : stdoutSubst o.err o.stdout with
    | error e =>
      simp only
      exact h
    | ok body =>
      simp only [Documents.upsert, List.countP_append]
      have hnew : (applySet (blankDoc freshId)
          { title := some doc.cmd, body := some body,
            stderr := some o.stderr, createdAt := some now }).title = some doc.cmd := rfl
      by_cases hcc : c = doc.cmd
      · subst hcc
        have h0 : store.countP (fun d => d.title == some doc.cmd) = 0 := by omega
        have h1 : ([applySet (blankDoc freshId)
            { title := some doc.cmd, body := some body,
              stderr := some o.stderr, createdAt := some now }] : List Document).countP
            (fun d => d.title == some doc.cmd) ≤ 1 := by
          rw [List.countP_cons, List.countP_nil]
          split <;> omega
        omega
      · have h1 : ([applySet (blankDoc freshId)
            { title := some doc.cmd, body := some body,
              stderr := some o.stderr, createdAt := some now }] : List Document).countP
            (fun d => d.title == some c) = 0 := by
          rw [List.countP_cons, List.countP_nil]
          rw [if_neg ?_]
          simp only [hnew, beq_iff_eq, Option.some.injEq]
          intro hx
          exact hcc hx.symm
        omega

/-- Removal preserves "at most one record titled `c`". -/
theorem remove_countP_le (store : List Document) (id c : String)
    (h : store.countP (fun d => d.title == some c) ≤ 1) :
    (Documents.remove store id).countP (fun d => d.title == some c) ≤ 1 := by
  unfold Documents.remove
  calc (store.filter (fun d => d._id != id)).countP (fun d => d.title == some c)
      ≤ store.countP (fun d => d.title == some c) := by
        rw [List.countP_filter]
        apply List.countP_mono_left
        intro x _ hx
        exact (Bool.and_eq_true _ _).mp hx |>.1
    _ ≤ 1 := h

/-- Folding any sequence of non-upsert operations preserves the per-command
uniqueness bound. -/
theorem runOps_countP_le_aux (ops : List GatewayOp)
    (hno : ∀ op ∈ ops, op.isUpsert = false) :
    ∀ store : List Document,
      (∀ c : String, store.countP (fun d => d.title == some c) ≤ 1) →
      ∀ c : String,
        (ops.foldl applyOp store).countP (fun d => d.title == some c) ≤ 1 := by
  induction ops with
  | nil =>
    intro store hstore c
    exact hstore c
  | cons op rest ih =>
    intro store hstore c
    rw [List.foldl_cons]
    refine ih (fun op2 h2 => hno op2 (List.mem_cons_of_mem op h2)) (applyOp store op) ?_ c
    intro c2
    cases op with
    | opUpsert args freshId =>
      exact absurd (hno _ (List.mem_cons_self _ rest)) (by simp [GatewayOp.isUpsert])
    | opRemove id =>
      exact remove_countP_le store id c2 (hstore c2)
    | opHli doc o now freshId =>
      rw [applyOp, HLIDockerRun_eq_dockerRun]
      exact dockerRun_countP_le hliImage store doc o now freshId c2 (hstore c2)
    | opPublicDocker doc o now freshId =>
      rw [applyOp, PublicDockerRun_eq_dockerRun]
      exact dockerRun_countP_le publicImage store doc o now freshId c2 (hstore c2)

/-- C6 (amended): in every state reachable from the empty store by a
sequence of completed operations not containing `documents.upsert`
(`documents.remove`, `docker.hli` and `docker.public` run to completion,
executed sequentially), each command string has at most one Record whose
title equals it — in particular at most one such Record with non-empty
output fields. -/
theorem at_most_one_record_per_command (ops : List GatewayOp)
    (hno : ∀ op ∈ ops, op.isUpsert = false) (c : String) :
    (runOps ops).countP (fun d => d.title == some c) ≤ 1 ∧
    (runOps ops).countP
      (fun d => d.title == some c && d.body.getD wEmpty != wEmpty &&
        d.stderr.getD wEmpty != wEmpty) ≤ 1 := by
  have hmain : (runOps ops).countP (fun d => d.title == some c) ≤ 1 :=
    runOps_countP_le_aux ops hno [] (fun _ => by simp) c
  refine ⟨hmain, le_trans ?_ hmain⟩
  apply List.countP_mono_left
  intro x _ hx
  exact ((Bool.and_eq_true _ _).mp ((Bool.and_eq_true _ _).mp hx).1).1

/-- Witness for C6 (amended) at a concrete four-operation history. -/
theorem at_most_one_record_per_command_witness :
    (∀ op ∈ [GatewayOp.opHli wDoc wOutcome 3 wFresh,
        GatewayOp.opHli wDoc wOutcome 4 wFresh2,
        GatewayOp.opRemove wFresh,
        GatewayOp.opPublicDocker wDoc wOutcome 5 wFresh2], op.isUpsert = false) ∧
    ((runOps [GatewayOp.opHli wDoc wOutcome 3 wFresh,
        GatewayOp.opHli wDoc wOutcome 4 wFresh2,
        GatewayOp.opRemove wFresh,
        GatewayOp.opPublicDocker wDoc wOutcome 5 wFresh2]).countP
        (fun d => d.title == some wCmd) ≤ 1 ∧
      (runOps [GatewayOp.opHli wDoc wOutcome 3 wFresh,
        GatewayOp.opHli wDoc wOutcome 4 wFresh2,
        GatewayOp.opRemove wFresh,
        GatewayOp.opPublicDocker wDoc wOutcome 5 wFresh2]).countP
        (fun d => d.title == some wCmd && d.body.getD wEmpty != wEmpty &&
          d.stderr.getD wEmpty != wEmpty) ≤ 1) :=
  ⟨by decide,
    at_most_one_record_per_command
      [GatewayOp.opHli wDoc wOutcome 3 wFresh,
        GatewayOp.opHli wDoc wOutcome 4 wFresh2,
        GatewayOp.opRemove wFresh,
        GatewayOp.opPublicDocker wDoc wOutcome 5 wFresh2] (by decide) wCmd⟩

/-- A first upsert argument object giving title `wCmd` and non-empty
outputs under id `wSupplied`. -/
def wArgsDup1 : UpsertArgs :=
  { _id := some wSupplied, title := some wCmd, body := some wBody,
    stderr := some wBody }

/-- A second upsert argument object with the same title and outputs but a
different id. -/
def wArgsDup2 : UpsertArgs :=
  { _id := some wId0, title := some wCmd, body := some wBody,
    stderr := some wBody }

/-- Counterexample to C6 as stated: two completed `documents.upsert` calls
with the same title and different ids leave two Records whose title is that
command string and whose output fields are non-empty. -/
theorem duplicate_titles_via_upsert_cex :
    (runOps [GatewayOp.opUpsert wArgsDup1 wFresh,
        GatewayOp.opUpsert wArgsDup2 wFresh2]).countP
      (fun d => d.title == some wCmd && d.body.getD wEmpty != wEmpty &&
        d.stderr.getD wEmpty != wEmpty) = 2 := by
  decide

/-- The `maxBuffer` option both dispatch methods pass to `exec`
(`maxBuffer: 1024 * 1000`). -/
def maxBuffer : Nat := 1024 * 1000

/-- Truncation of a string to at most `n` characters (one character per
byte for the ASCII output in scope). -/
def truncateTo (n : Nat) (s : String) : String :=
  String.mk (s.data.take n)

/-- Modelled boundary of the external `exec(cmd, {maxBuffer}, cb)`
primitive: each stream is buffered up to `maxBuffer`; producing more output
kills the process and reports an error, and a non-zero exit (`exitOk =
false`) reports an error; the callback receives the buffered (truncated)
streams either way.  `errMsg` is the `toString()` of the error object
delivered on failure. -/
def execCapture (rawOut rawErr : String) (exitOk : Bool) (errMsg : String) :
    ExecOutcome :=
  { err :=
      if exitOk &&
          !(decide (maxBuffer < rawOut.length) || decide (maxBuffer < rawErr.length)) then
        none
      else some errMsg
    stdout := truncateTo maxBuffer rawOut
    stderr := truncateTo maxBuffer rawErr }

/-- Length of a truncated string. -/
theorem truncateTo_length (n : Nat) (s : String) :
    (truncateTo n s).length = min n s.length := by
  rw [truncateTo, String.length_mk, List.length_take, String.length]

/-- Every record in a dispatch result with non-empty captured stdout is
either a pre-existing record or carries the captured (bounded) streams. -/
theorem dockerRun_output_bounded (image : String) (store : List Document)
    (doc : MethodDoc) (o : ExecOutcome) (now : Nat) (freshId : String)
    (hout : o.stdout ≠ "") (h1 : o.stdout.length ≤ maxBuffer)
    (h2 : o.stderr.length ≤ maxBuffer) :
    ∀ d ∈ (dockerRun image store doc o now freshId).store,
      d ∈ store ∨ ((d.body.getD wEmpty).length ≤ maxBuffer ∧
        (d.stderr.getD wEmpty).length ≤ maxBuffer) := by
  intro d hd
  unfold dockerRun at hd
  by_cases hdup : store.countP (fun x => x.title == some doc.cmd) ≠ 0
  · rw [if_pos hdup] at hd
    exact Or.inl hd
  · rw [if_neg hdup] at hd
    have hs : stdoutSubst o.err o.stdout = Except.ok o.stdout := by
      unfold stdoutSubst
      rw [if_neg hout]
    simp only [hs, Documents.upsert] at hd
    rcases List.mem_append.mp hd with h | h
    · exact Or.inl h
    · right
      have hde : d = applySet (blankDoc freshId)
          { title := some doc.cmd, body := some o.stdout,
            stderr := some o.stderr, createdAt := some now } := by
        simpa using h
      subst hde
      constructor
      · simpa [applySet, setField, blankDoc, wEmpty] using h1
      · simpa [applySet, setField, blankDoc, wEmpty] using h2

/-- C4 (amended): for every process execution, captured stdout and stderr
are each bounded to at most `maxBuffer = 1024 * 1000` bytes, so whenever the
captured stdout is non-empty (in particular whenever the process produced
more output than the cap), every record either dispatcher persists carries
`body` and `stderr` of at most that cap. -/
theorem capture_bounded_by_maxBuffer (rawOut rawErr : String) (exitOk : Bool)
    (errMsg : String) (store : List Document) (doc : MethodDoc) (now : Nat)
    (freshId : String)
    (hout : (execCapture rawOut rawErr exitOk errMsg).stdout ≠ "") :
    (execCapture rawOut rawErr exitOk errMsg).stdout.length ≤ maxBuffer ∧
    (execCapture rawOut rawErr exitOk errMsg).stderr.length ≤ maxBuffer ∧
    (∀ d ∈ (HLIDockerRun store doc (execCapture rawOut rawErr exitOk errMsg)
        now freshId).store,
      d ∈ store ∨ ((d.body.getD wEmpty).length ≤ maxBuffer ∧
        (d.stderr.getD wEmpty).length ≤ maxBuffer)) ∧
    (∀ d ∈ (PublicDockerRun store doc (execCapture rawOut rawErr exitOk errMsg)
        now freshId).store,
      d ∈ store ∨ ((d.body.getD wEmpty).length ≤ maxBuffer ∧
        (d.stderr.getD wEmpty).length ≤ maxBuffer)) := by
  have h1 : (execCapture rawOut rawErr exitOk errMsg).stdout.length ≤ maxBuffer := by
    show (truncateTo maxBuffer rawOut).length ≤ maxBuffer
    rw [truncateTo_length]
    exact Nat.min_le_left _ _
  have h2 : (execCapture rawOut rawErr exitOk errMsg).stderr.length ≤ maxBuffer := by
    show (truncateTo maxBuffer rawErr).length ≤ maxBuffer
    rw [truncateTo_length]
    exact Nat.min_le_left _ _
  refine ⟨h1, h2, ?_, ?_⟩
  · rw [HLIDockerRun_eq_dockerRun]
    exact dockerRun_output_bounded hliImage store doc _ now freshId hout h1 h2
  · rw [PublicDockerRun_eq_dockerRun]
    exact dockerRun_output_bounded publicImage store doc _ now freshId hout h1 h2

/-- Witness for C4 (amended) at a small concrete execution. -/
theorem capture_bounded_by_maxBuffer_witness :
    (execCapture wBody wEmpty true wEmpty).stdout ≠ "" ∧
    ((execCapture wBody wEmpty true wEmpty).stdout.length ≤ maxBuffer ∧
      (execCapture wBody wEmpty true wEmpty).stderr.length ≤ maxBuffer ∧
      (∀ d ∈ (HLIDockerRun [] wDoc (execCapture wBody wEmpty true wEmpty)
          0 wFresh).store,
        d ∈ ([] : List Document) ∨ ((d.body.getD wEmpty).length ≤ maxBuffer ∧
          (d.stderr.getD wEmpty).length ≤ maxBuffer)) ∧
      (∀ d ∈ (PublicDockerRun [] wDoc (execCapture wBody wEmpty true wEmpty)
          0 wFresh).store,
        d ∈ ([] : List Document) ∨ ((d.body.getD wEmpty).length ≤ maxBuffer ∧
          (d.stderr.getD wEmpty).length ≤ maxBuffer))) :=
  ⟨by decide,
    capture_bounded_by_maxBuffer wBody wEmpty true wEmpty [] wDoc 0 wFresh (by decide)⟩

/-- A raw stdout of 1,010,000 bytes: more than 1,000,000 but within the
actual `maxBuffer` of 1,024,000. -/
def bigRaw : String := String.mk (List.replicate 1010000 'a')

/-- The raw output is 1,010,000 characters long. -/
theorem bigRaw_length : bigRaw.length = 1010000 := by
  rw [bigRaw, String.length_mk, List.length_replicate]

/-- The raw output is non-empty. -/
theorem bigRaw_ne_empty : bigRaw ≠ "" := by
  intro hcon
  have hlen := congrArg String.length hcon
  rw [bigRaw_length] at hlen
  simp at hlen

/-- The 1,010,000-byte output passes through the 1,024,000-byte buffer
untruncated. -/
theorem truncateTo_bigRaw : truncateTo maxBuffer bigRaw = bigRaw := by
  rw [bigRaw, truncateTo, maxBuffer]
  rw [show (String.mk (List.replicate 1010000 'a')).data =
    List.replicate 1010000 'a' from rfl]
  rw [List.take_replicate]
  rw [show (1024 * 1000) ⊓ 1010000 = 1010000 by decide]

/-- The exec outcome for `bigRaw` on a clean exit: no error, output intact. -/
theorem execCapture_bigRaw :
    execCapture bigRaw wEmpty true wEmpty =
      { err := none, stdout := bigRaw, stderr := wEmpty } := by
  unfold execCapture
  rw [truncateTo_bigRaw]
  rw [show truncateTo maxBuffer wEmpty = wEmpty by decide]
  rw [show (true &&
      !(decide (maxBuffer < bigRaw.length) ||
        decide (maxBuffer < wEmpty.length))) = true by
    rw [bigRaw_length]; decide]
  simp

/-- Counterexample to C4 as stated: a process producing 1,010,000 bytes of
stdout yields a persisted Record whose body is 1,010,000 bytes long —
more than the claimed 1,000,000-byte cap. -/
theorem capture_exceeds_one_million_cex :
    (HLIDockerRun [] wDoc (execCapture bigRaw wEmpty true wEmpty) 0 wFresh).store =
      [{ _id := wFresh, title := some wCmd, body := some bigRaw,
         stderr := some wEmpty, createdAt := some 0 }] ∧
    1000000 < bigRaw.length := by
  have hstore : (HLIDockerRun [] wDoc (execCapture bigRaw wEmpty true wEmpty)
      0 wFresh).store =
      [{ _id := wFresh, title := some wCmd, body := some bigRaw,
         stderr := some wEmpty, createdAt := some 0 }] := by
    rw [execCapture_bigRaw]
    unfold HLIDockerRun
    rw [if_neg (by decide)]
    have hsub : stdoutSubst none bigRaw = Except.ok bigRaw := by
      unfold stdoutSubst
      rw [if_neg bigRaw_ne_empty]
    simp only [hsub]
    rfl
  refine ⟨hstore, ?_⟩
  rw [bigRaw_length]
  omega

/-- Length of the structured error payload. -/
theorem jsonStringifyError_length (e : String) :
    (jsonStringifyError e).length = e.length + 12 := by
  rw [jsonStringifyError, String.length_append, String.length_append]
  rw [show ("\x7b\"error\":\"" : String).length = 10 from rfl]
  rw [show ("\"\x7d" : String).length = 2 from rfl]
  omega

/-- The structured error payload is never the empty string. -/
theorem jsonStringifyError_ne_empty (e : String) : jsonStringifyError e ≠ "" := by
  intro hcon
  have hlen := congrArg String.length hcon
  rw [jsonStringifyError_length] at hlen
  simp at hlen

/-- C5: when a dispatch misses the dedup check and its callback completes
(stdout non-empty or err non-null), the persisted Record carries the
captured stderr verbatim, and its body equals the captured stdout verbatim
exactly when stdout is non-empty; when the process failed with empty stdout,
the body is the structured JSON error payload instead. -/
theorem persisted_body_matches_stdout (store : List Document)
    (doc : MethodDoc) (o : ExecOutcome) (now : Nat) (freshId : String)
    (hmiss : store.countP (fun d => d.title == some doc.cmd) = 0)
    (hdone : o.stdout ≠ "" ∨ o.err ≠ none) :
    ∃ body,
      (HLIDockerRun store doc o now freshId).store =
        store ++ [{ _id := freshId, title := some doc.cmd, body := some body,
                    stderr := some o.stderr, createdAt := some now }] ∧
      (body = o.stdout ↔ o.stdout ≠ "") ∧
      (o.stdout ≠ "" → body = o.stdout) ∧
      (∀ e, o.err = some e → o.stdout = "" → body = jsonStringifyError e) := by
  have hnz : ¬ store.countP (fun d => d.title == some doc.cmd) ≠ 0 := by omega
  by_cases hso : o.stdout = ""
  · have herr : ∃ e, o.err = some e := by
      rcases hdone with h | h
      · exact absurd hso h
      · cases he : o.err with
        | none => exact absurd he h
        | some e => exact ⟨e, rfl⟩
    obtain ⟨e, he⟩ := herr
    refine ⟨jsonStringifyError e, ?_, ?_, ?_, ?_⟩
    · unfold HLIDockerRun
      rw [if_neg hnz]
      have hsub : stdoutSubst o.err o.stdout =
          Except.ok (jsonStringifyError e) := by
        unfold stdoutSubst
        rw [if_pos hso, he]
      simp only [hsub, Documents.upsert]
      rfl
    · constructor
      · intro hbe
        rw [hso] at hbe
        exact absurd hbe (jsonStringifyError_ne_empty e)
      · intro hne
        exact absurd hso hne
    · intro hne
      exact absurd hso hne
    · intro e2 he2 _
      rw [he] at he2
      rw [Option.some.injEq] at he2
      rw [he2]
  · refine ⟨o.stdout, ?_, ?_, ?_, ?_⟩
    · unfold HLIDockerRun
      rw [if_neg hnz]
      have hsub : stdoutSubst o.err o.stdout = Except.ok o.stdout := by
        unfold stdoutSubst
        rw [if_neg hso]
      simp only [hsub, Documents.upsert]
      rfl
    · exact ⟨fun _ => hso, fun _ => rfl⟩
    · intro _
      rfl
    · intro e2 _ hcon
      exact absurd hcon hso

/-- A sample error message (the `toString()` of an exec error object). -/
def wErrMsg : String := "Error: Command failed"

/-- A failed exec outcome: non-null err, empty stdout, some stderr. -/
def wFailOutcome : ExecOutcome :=
  { err := some wErrMsg, stdout := wEmpty, stderr := wBody }

/-- Witness for C5 at a failed execution with empty stdout. -/
theorem persisted_body_matches_stdout_witness :
    ([] : List Document).countP (fun d => d.title == some wDoc.cmd) = 0 ∧
    (wFailOutcome.stdout ≠ "" ∨ wFailOutcome.err ≠ none) ∧
    (∃ body,
      (HLIDockerRun [] wDoc wFailOutcome 2 wFresh).store =
        [] ++ [{ _id := wFresh, title := some wDoc.cmd, body := some body,
                 stderr := some wFailOutcome.stderr, createdAt := some 2 }] ∧
      (body = wFailOutcome.stdout ↔ wFailOutcome.stdout ≠ "") ∧
      (wFailOutcome.stdout ≠ "" → body = wFailOutcome.stdout) ∧
      (∀ e, wFailOutcome.err = some e → wFailOutcome.stdout = "" →
        body = jsonStringifyError e)) :=
  ⟨by decide, Or.inr (by decide),
    persisted_body_matches_stdout [] wDoc wFailOutcome 2 wFresh (by decide)
      (Or.inr (by decide))⟩

/-- C10: on a dispatch whose process succeeds with empty stdout (null `err`,
empty stdout), the stdout-substitution expression throws by dereferencing
the null `err`, so the callback persists nothing and the store is unchanged;
the persist step completes exactly when stdout is non-empty or `err` is
non-null. -/
theorem empty_stdout_null_err_throws (store : List Document)
    (doc : MethodDoc) (stderrText : String) (now : Nat) (freshId : String)
    (hmiss : store.countP (fun d => d.title == some doc.cmd) = 0) :
    stdoutSubst none wEmpty = Except.error CallbackError.nullErrToString ∧
    (HLIDockerRun store doc
      { err := none, stdout := wEmpty, stderr := stderrText } now freshId).store =
      store ∧
    (PublicDockerRun store doc
      { err := none, stdout := wEmpty, stderr := stderrText } now freshId).store =
      store ∧
    (∀ err stdout, (stdoutSubst err stdout).isOk = true ↔
      (stdout ≠ "" ∨ err ≠ none)) := by
  have hnz : ¬ store.countP (fun d => d.title == some doc.cmd) ≠ 0 := by omega
  have hsub : stdoutSubst none wEmpty =
      Except.error CallbackError.nullErrToString := rfl
  refine ⟨hsub, ?_, ?_, ?_⟩
  · unfold HLIDockerRun
    rw [if_neg hnz]
    simp only [hsub]
  · unfold PublicDockerRun
    rw [if_neg hnz]
    simp only [hsub]
  · intro err stdout
    by_cases hs : stdout = ""
    · subst hs
      cases err with
      | none => simp [stdoutSubst, Except.isOk, Except.toBool]
      | some e => simp [stdoutSubst, Except.isOk, Except.toBool]
    · simp [stdoutSubst, hs, Except.isOk, Except.toBool]

/-- Witness for C10 at a concrete empty store and dispatch. -/
theorem empty_stdout_null_err_throws_witness :
    ([] : List Document).countP (fun d => d.title == some wDoc.cmd) = 0 ∧
    (stdoutSubst none wEmpty = Except.error CallbackError.nullErrToString ∧
      (HLIDockerRun [] wDoc
        { err := none, stdout := wEmpty, stderr := wBody } 0 wFresh).store =
        ([] : List Document) ∧
      (PublicDockerRun [] wDoc
        { err := none, stdout := wEmpty, stderr := wBody } 0 wFresh).store =
        ([] : List Document) ∧
      (∀ err stdout, (stdoutSubst err stdout).isOk = true ↔
        (stdout ≠ "" ∨ err ≠ none))) :=
  ⟨by decide, empty_stdout_null_err_throws [] wDoc wBody 0 wFresh (by decide)⟩

/-! The Method Gateway's rate limiting layer.  The call-site registration
(`rateLimit({methods: [upsertDocument, removeDocument], limit: 5,
timeRange: 1000})`) is in the methods file; the limiter mechanism itself
lives in `modules/rate-limit`, which is not part of the sources, and is
modelled from the spec. -/

/-- The method name of `upsertDocument`. -/
def nameUpsert : String := "documents.upsert"

/-- The method name of `removeDocument`. -/
def nameRemove : String := "documents.remove"

/-- The method name of `HLIDocker`. -/
def nameHli : String := "docker.hli"

/-- The method name of `PublicDocker`. -/
def namePublicDocker : String := "docker.public"

/-- The `limit` argument of the `rateLimit` registration. -/
def limit : Nat := 5

/-- The `timeRange` argument of the `rateLimit` registration, in
milliseconds. -/
def timeRange : Nat := 1000

/-- The methods the source registers with the rate limiter: only
`upsertDocument` and `removeDocument`. -/
def rateLimitedMethods : List String := [nameUpsert, nameRemove]

/-- Per-method limiter bucket: the start of the current window and the
number of calls counted in it. -/
structure LimiterBucket where
  windowStart : Nat
  count : Nat
deriving Repr, DecidableEq

/-- Modelled from the spec: the rate limiter of `modules/rate-limit` (not
under the sources; spec section 4.2).  It keeps, per tracked method, a count
of calls within a window of length `timeRange`; a call that would push the
count beyond `limit` is refused.  The window is the fixed-bucket
approximation the spec explicitly permits: the bucket resets when more than
`timeRange` has passed since the window started, as in Meteor's
DDPRateLimiter which the module wraps. -/
def limiterStep (b : Option LimiterBucket) (now : Nat) : Bool × LimiterBucket :=
  let b0 : LimiterBucket :=
    match b with
    | none => { windowStart := now, count := 0 }
    | some bb =>
      if bb.windowStart + timeRange < now then { windowStart := now, count := 0 }
      else bb
  let b1 : LimiterBucket := { windowStart := b0.windowStart, count := b0.count + 1 }
  (decide (b1.count ≤ limit), b1)

/-- State visible to the Method Gateway: the Result Store, the limiter
buckets per method name, and the log of command lines handed to `exec`. -/
structure GatewayState where
  store : List Document
  buckets : List (String × LimiterBucket)
  spawns : List String
deriving Repr, DecidableEq

/-- The error a refused call fails with. -/
inductive GatewayError where
  | rateLimitExceeded
deriving Repr, DecidableEq

/-- Modelled from the spec: the limiter check the Gateway applies before a
method body runs.  Methods not registered with the limiter pass through
with no bucket consulted or updated. -/
def rateCheck (s : GatewayState) (nm : String) (now : Nat) :
    Bool × GatewayState :=
  if rateLimitedMethods.contains nm then
    let r := limiterStep (s.buckets.lookup nm) now
    (r.1, { s with
      buckets := (nm, r.2) :: s.buckets.filter (fun p => p.1 != nm) })
  else
    (true, s)

/-- A `documents.upsert` call through the Gateway: limiter check, then the
method body; a refused call fails with `RateLimitExceeded` and never reaches
the store. -/
def callUpsertDocument (s : GatewayState) (args : UpsertArgs)
    (freshId : String) (now : Nat) : Option GatewayError × GatewayState :=
  let r := rateCheck s nameUpsert now
  if r.1 then
    (none, { r.2 with store := upsertDocumentRun r.2.store args freshId })
  else
    (some GatewayError.rateLimitExceeded, r.2)

/-- A `documents.remove` call through the Gateway. -/
def callRemoveDocument (s : GatewayState) (id : String) (now : Nat) :
    Option GatewayError × GatewayState :=
  let r := rateCheck s nameRemove now
  if r.1 then
    (none, { r.2 with store := removeDocumentRun r.2.store id })
  else
    (some GatewayError.rateLimitExceeded, r.2)

/-- A `docker.hli` call through the Gateway: the method is not registered
with the limiter, so the dispatch always runs. -/
def callHLIDocker (s : GatewayState) (doc : MethodDoc) (o : ExecOutcome)
    (now : Nat) (freshId : String) : Option GatewayError × GatewayState :=
  let r := rateCheck s nameHli now
  if r.1 then
    let dres := HLIDockerRun r.2.store doc o now freshId
    (none, { r.2 with store := dres.store,
                      spawns := r.2.spawns ++ dres.spawned.toList })
  else
    (some GatewayError.rateLimitExceeded, r.2)

/-- A `docker.public` call through the Gateway. -/
def callPublicDocker (s : GatewayState) (doc : MethodDoc) (o : ExecOutcome)
    (now : Nat) (freshId : String) : Option GatewayError × GatewayState :=
  let r := rateCheck s namePublicDocker now
  if r.1 then
    let dres := PublicDockerRun r.2.store doc o now freshId
    (none, { r.2 with store := dres.store,
                      spawns := r.2.spawns ++ dres.spawned.toList })
  else
    (some GatewayError.rateLimitExceeded, r.2)

/-- The initial Gateway state: empty store, no limiter history, no spawns. -/
def s0 : GatewayState := { store := [], buckets := [], spawns := [] }

/-- The store and spawn log are untouched by the limiter check itself. -/
theorem rateCheck_state (s : GatewayState) (nm : String) (now : Nat) :
    (rateCheck s nm now).2.store = s.store ∧
    (rateCheck s nm now).2.spawns = s.spawns := by
  unfold rateCheck
  by_cases hc : rateLimitedMethods.contains nm
  · rw [if_pos hc]
    exact ⟨rfl, rfl⟩
  · rw [if_neg hc]
    exact ⟨rfl, rfl⟩

/-- A first `documents.upsert` call with no limiter history: allowed, bucket
opened at the call time with count one. -/
theorem upsertCall_start (store : List Document) (spawns : List String)
    (args : UpsertArgs) (freshId : String) (now : Nat) :
    callUpsertDocument { store := store, buckets := [], spawns := spawns }
        args freshId now =
      (none, { store := upsertDocumentRun store args freshId,
               buckets := [(nameUpsert, { windowStart := now, count := 1 })],
               spawns := spawns }) := rfl

/-- A `documents.upsert` call inside the current window and under the cap:
allowed, count incremented. -/
theorem upsertCall_in_window (store : List Document) (spawns : List String)
    (w k : Nat) (args : UpsertArgs) (freshId : String) (now : Nat)
    (hwin : ¬ w + timeRange < now) (hcap : k + 1 ≤ limit) :
    callUpsertDocument
        { store := store,
          buckets := [(nameUpsert, { windowStart := w, count := k })],
          spawns := spawns } args freshId now =
      (none, { store := upsertDocumentRun store args freshId,
               buckets := [(nameUpsert, { windowStart := w, count := k + 1 })],
               spawns := spawns }) := by
  unfold callUpsertDocument rateCheck limiterStep
  rw [if_pos (show rateLimitedMethods.contains nameUpsert = true from rfl)]
  simp only [List.lookup, List.filter, beq_self_eq_true, bne_self_eq_false]
  rw [if_neg hwin]
  simp [decide_eq_true hcap]

/-- A `documents.upsert` call inside the current window but beyond the cap:
refused with `RateLimitExceeded`, the store untouched. -/
theorem upsertCall_reject (store : List Document) (spawns : List String)
    (w k : Nat) (args : UpsertArgs) (freshId : String) (now : Nat)
    (hwin : ¬ w + timeRange < now) (hcap : ¬ k + 1 ≤ limit) :
    callUpsertDocument
        { store := store,
          buckets := [(nameUpsert, { windowStart := w, count := k })],
          spawns := spawns } args freshId now =
      (some GatewayError.rateLimitExceeded,
        { store := store,
          buckets := [(nameUpsert, { windowStart := w, count := k + 1 })],
          spawns := spawns }) := by
  unfold callUpsertDocument rateCheck limiterStep
  rw [if_pos (show rateLimitedMethods.contains nameUpsert = true from rfl)]
  simp only [List.lookup, List.filter, beq_self_eq_true, bne_self_eq_false]
  rw [if_neg hwin]
  simp [decide_eq_false hcap]

/-- A `documents.upsert` call after the window has elapsed: the bucket
resets and the call is allowed again. -/
theorem upsertCall_after_window (store : List Document) (spawns : List String)
    (w k : Nat) (args : UpsertArgs) (freshId : String) (now : Nat)
    (hwin : w + timeRange < now) :
    callUpsertDocument
        { store := store,
          buckets := [(nameUpsert, { windowStart := w, count := k })],
          spawns := spawns } args freshId now =
      (none, { store := upsertDocumentRun store args freshId,
               buckets := [(nameUpsert, { windowStart := now, count := 1 })],
               spawns := spawns }) := by
  unfold callUpsertDocument rateCheck limiterStep
  rw [if_pos (show rateLimitedMethods.contains nameUpsert = true from rfl)]
  simp only [List.lookup, List.filter, beq_self_eq_true, bne_self_eq_false]
  rw [if_pos hwin]
  simp [limit]

/-- C3 (amended): only `documents.upsert` and `documents.remove` are
registered with the rate limiter; for those, a call the limiter refuses
fails with `RateLimitExceeded` and is not forwarded to the Result Store;
the dispatch triggers `docker.hli` and `docker.public` are not registered,
are never refused, never touch a limiter bucket, and always forward to the
dispatcher. -/
theorem rate_limit_covers_only_document_methods :
    (nameUpsert ∈ rateLimitedMethods ∧ nameRemove ∈ rateLimitedMethods ∧
      nameHli ∉ rateLimitedMethods ∧ namePublicDocker ∉ rateLimitedMethods) ∧
    (∀ s args freshId now, (rateCheck s nameUpsert now).1 = false →
      (callUpsertDocument s args freshId now).1 =
        some GatewayError.rateLimitExceeded ∧
      (callUpsertDocument s args freshId now).2.store = s.store ∧
      (callUpsertDocument s args freshId now).2.spawns = s.spawns) ∧
    (∀ s id now, (rateCheck s nameRemove now).1 = false →
      (callRemoveDocument s id now).1 = some GatewayError.rateLimitExceeded ∧
      (callRemoveDocument s id now).2.store = s.store ∧
      (callRemoveDocument s id now).2.spawns = s.spawns) ∧
    (∀ s doc o now freshId,
      (callHLIDocker s doc o now freshId).1 = none ∧
      (callHLIDocker s doc o now freshId).2.buckets = s.buckets ∧
      (callHLIDocker s doc o now freshId).2.store =
        (HLIDockerRun s.store doc o now freshId).store) ∧
    (∀ s doc o now freshId,
      (callPublicDocker s doc o now freshId).1 = none ∧
      (callPublicDocker s doc o now freshId).2.buckets = s.buckets ∧
      (callPublicDocker s doc o now freshId).2.store =
        (PublicDockerRun s.store doc o now freshId).store) := by
  refine ⟨by decide, ?_, ?_, ?_, ?_⟩
  · intro s args freshId now h
    have h1 : callUpsertDocument s args freshId now =
        (some GatewayError.rateLimitExceeded, (rateCheck s nameUpsert now).2) := by
      simp only [callUpsertDocument, h, Bool.false_eq_true, if_false]
    rw [h1]
    exact ⟨rfl, (rateCheck_state s nameUpsert now).1,
      (rateCheck_state s nameUpsert now).2⟩
  · intro s id now h
    have h1 : callRemoveDocument s id now =
        (some GatewayError.rateLimitExceeded, (rateCheck s nameRemove now).2) := by
      simp only [callRemoveDocument, h, Bool.false_eq_true, if_false]
    rw [h1]
    exact ⟨rfl, (rateCheck_state s nameRemove now).1,
      (rateCheck_state s nameRemove now).2⟩
  · intro s doc o now freshId
    unfold callHLIDocker rateCheck
    rw [if_neg (show ¬ rateLimitedMethods.contains nameHli = true by decide)]
    exact ⟨rfl, rfl, rfl⟩
  · intro s doc o now freshId
    unfold callPublicDocker rateCheck
    rw [if_neg
      (show ¬ rateLimitedMethods.contains namePublicDocker = true by decide)]
    exact ⟨rfl, rfl, rfl⟩

/-- A Gateway state whose `documents.upsert` bucket already counts five
calls in the window that started at time 0. -/
def srej : GatewayState :=
  { store := [],
    buckets := [(nameUpsert, { windowStart := 0, count := 5 })],
    spawns := [] }

/-- Witness for C3 (amended): a sixth in-window `documents.upsert` call on
`srej` is refused and changes nothing, while a `docker.hli` call is never
refused. -/
theorem rate_limit_covers_only_document_methods_witness :
    (rateCheck srej nameUpsert 0).1 = false ∧
    ((callUpsertDocument srej wArgs wFresh 0).1 =
        some GatewayError.rateLimitExceeded ∧
      (callUpsertDocument srej wArgs wFresh 0).2.store = srej.store ∧
      (callUpsertDocument srej wArgs wFresh 0).2.spawns = srej.spawns) ∧
    ((callHLIDocker s0 wDoc wOutcome 0 wFresh).1 = none ∧
      (callHLIDocker s0 wDoc wOutcome 0 wFresh).2.buckets = s0.buckets ∧
      (callHLIDocker s0 wDoc wOutcome 0 wFresh).2.store =
        (HLIDockerRun s0.store wDoc wOutcome 0 wFresh).store) :=
  ⟨by decide,
    rate_limit_covers_only_document_methods.2.1 srej wArgs wFresh 0 (by decide),
    rate_limit_covers_only_document_methods.2.2.2.1 s0 wDoc wOutcome 0 wFresh⟩

/-- The state after one `docker.hli` call at time 0 from the initial
state. -/
def hliChain1 : GatewayState := (callHLIDocker s0 wDoc wOutcome 0 wFresh).2

/-- The state after two `docker.hli` calls at times 0 and 1. -/
def hliChain2 : GatewayState := (callHLIDocker hliChain1 wDoc wOutcome 1 wFresh).2

/-- The state after three `docker.hli` calls. -/
def hliChain3 : GatewayState := (callHLIDocker hliChain2 wDoc wOutcome 2 wFresh).2

/-- The state after four `docker.hli` calls. -/
def hliChain4 : GatewayState := (callHLIDocker hliChain3 wDoc wOutcome 3 wFresh).2

/-- The state after five `docker.hli` calls. -/
def hliChain5 : GatewayState := (callHLIDocker hliChain4 wDoc wOutcome 4 wFresh).2

/-- Counterexample to C3 as stated: six `docker.hli` dispatch calls issued
at times 0..5, all within one 1000 ms window, are all accepted — the sixth
is not refused with `RateLimitExceeded`, because the dispatch triggers are
not registered with the rate limiter. -/
theorem hli_never_rate_limited_cex :
    (callHLIDocker hliChain5 wDoc wOutcome 5 wFresh).1 = none ∧
    (callHLIDocker hliChain5 wDoc wOutcome 5 wFresh).1 ≠
      some GatewayError.rateLimitExceeded := by
  decide

/-- Run a list of `documents.upsert` calls (argument object, fresh id, call
time) through the Gateway in order, collecting each call's error result. -/
def runUpsertCalls (s : GatewayState) :
    List (UpsertArgs × String × Nat) → List (Option GatewayError)
  | [] => []
  | (a, f, t) :: rest =>
    let r := callUpsertDocument s a f t
    r.1 :: runUpsertCalls r.2 rest

/-- C8: with cap 5 and window 1000 ms, any five rate-limited mutating calls
issued within one window (at times `t1..t5`, each at most `t1 + timeRange`)
all succeed, a sixth call within the same window is rejected with
`RateLimitExceeded`, and a call issued after the window has elapsed
succeeds again. -/
theorem rate_limit_window_boundary
    (t1 t2 t3 t4 t5 t6 t7 : Nat)
    (a1 a2 a3 a4 a5 a6 a7 : UpsertArgs)
    (f1 f2 f3 f4 f5 f6 f7 : String)
    (hmono : t1 ≤ t2 ∧ t2 ≤ t3 ∧ t3 ≤ t4 ∧ t4 ≤ t5 ∧ t5 ≤ t6 ∧ t6 ≤ t7)
    (hb2 : t2 ≤ t1 + timeRange) (hb3 : t3 ≤ t1 + timeRange)
    (hb4 : t4 ≤ t1 + timeRange) (hb5 : t5 ≤ t1 + timeRange)
    (hb6 : t6 ≤ t1 + timeRange) (h7 : t1 + timeRange < t7) :
    runUpsertCalls s0
        [(a1, f1, t1), (a2, f2, t2), (a3, f3, t3), (a4, f4, t4),
          (a5, f5, t5), (a6, f6, t6), (a7, f7, t7)] =
      [none, none, none, none, none,
        some GatewayError.rateLimitExceeded, none] := by
  have e1 := upsertCall_start [] [] a1 f1 t1
  have e2 := upsertCall_in_window (upsertDocumentRun [] a1 f1) [] t1 1
    a2 f2 t2 (by omega) (by decide)
  have e3 := upsertCall_in_window
    (upsertDocumentRun (upsertDocumentRun [] a1 f1) a2 f2) [] t1 2
    a3 f3 t3 (by omega) (by decide)
  have e4 := upsertCall_in_window
    (upsertDocumentRun (upsertDocumentRun (upsertDocumentRun [] a1 f1) a2 f2)
      a3 f3) [] t1 3 a4 f4 t4 (by omega) (by decide)
  have e5 := upsertCall_in_window
    (upsertDocumentRun (upsertDocumentRun (upsertDocumentRun
      (upsertDocumentRun [] a1 f1) a2 f2) a3 f3) a4 f4) [] t1 4
    a5 f5 t5 (by omega) (by decide)
  have e6 := upsertCall_reject
    (upsertDocumentRun (upsertDocumentRun (upsertDocumentRun
      (upsertDocumentRun (upsertDocumentRun [] a1 f1) a2 f2) a3 f3) a4 f4)
      a5 f5) [] t1 5 a6 f6 t6 (by omega) (by decide)
  have e7 := upsertCall_after_window
    (upsertDocumentRun (upsertDocumentRun (upsertDocumentRun
      (upsertDocumentRun (upsertDocumentRun [] a1 f1) a2 f2) a3 f3) a4 f4)
      a5 f5) [] t1 6 a7 f7 t7 h7
  norm_num at e2 e3 e4 e5 e6
  simp only [runUpsertCalls, s0, e1, e2, e3, e4, e5, e6, e7]

/-- Witness for C8 at concrete call times 0..5 and 1001. -/
theorem rate_limit_window_boundary_witness :
    ((0 : Nat) ≤ 1 ∧ (1 : Nat) ≤ 2 ∧ (2 : Nat) ≤ 3 ∧ (3 : Nat) ≤ 4 ∧
      (4 : Nat) ≤ 5 ∧ (5 : Nat) ≤ 1001) ∧
    ((1 : Nat) ≤ 0 + timeRange ∧ (2 : Nat) ≤ 0 + timeRange ∧
      (3 : Nat) ≤ 0 + timeRange ∧ (4 : Nat) ≤ 0 + timeRange ∧
      (5 : Nat) ≤ 0 + timeRange ∧ 0 + timeRange < 1001) ∧
    runUpsertCalls s0
        [(wArgs, wFresh, 0), (wArgs, wFresh, 1), (wArgs, wFresh, 2),
          (wArgs, wFresh, 3), (wArgs, wFresh, 4), (wArgs, wFresh, 5),
          (wArgs, wFresh, 1001)] =
      [none, none, none, none, none,
        some GatewayError.rateLimitExceeded, none] :=
  ⟨by decide, by decide,
    rate_limit_window_boundary 0 1 2 3 4 5 1001
      wArgs wArgs wArgs wArgs wArgs wArgs wArgs
      wFresh wFresh wFresh wFresh wFresh wFresh wFresh
      (by decide) (by decide) (by decide) (by decide) (by decide) (by decide)
      (by decide)⟩
